import Mathlib

/-!
Verification of the Mergington High School activities API
(src/src/app.py): an in-memory registry of extracurricular activities,
read by a list endpoint and mutated by signup and unregister operations.
-/

namespace Mergington

/-- An activity record, as stored in the in-memory `activities` dictionary
of src/src/app.py. -/
structure Activity where
  description : String
  schedule : String
  max_participants : Nat
  participants : List String
deriving Repr, DecidableEq

/-- The registry: an insertion-ordered mapping from activity name to
activity record (the module-level Python dict `activities`). -/
abbrev Registry := List (String × Activity)

/-- An HTTP error response, as raised by `HTTPException(status_code, detail)`. -/
structure HTTPError where
  status_code : Nat
  detail : String
deriving Repr, DecidableEq

/-- The seeded in-memory activity database of src/src/app.py (lines 23-84). -/
def activities : Registry :=
  [("Chess Club",
    { description := "Learn strategies and compete in chess tournaments"
      schedule := "Fridays, 3:30 PM - 5:00 PM"
      max_participants := 12
      participants := ["michael@mergington.edu", "daniel@mergington.edu"] }),
   ("Programming Class",
    { description := "Learn programming fundamentals and build software projects"
      schedule := "Tuesdays and Thursdays, 3:30 PM - 4:30 PM"
      max_participants := 20
      participants := ["emma@mergington.edu", "sophia@mergington.edu"] }),
   ("Gym Class",
    { description := "Physical education and sports activities"
      schedule := "Mondays, Wednesdays, Fridays, 2:00 PM - 3:00 PM"
      max_participants := 30
      participants := ["john@mergington.edu", "olivia@mergington.edu"] }),
   ("Soccer Team",
    { description := "Competitive soccer training and matches"
      schedule := "Mondays and Thursdays, 4:00 PM - 6:00 PM"
      max_participants := 18
      participants := ["alex@mergington.edu", "nina@mergington.edu"] }),
   ("Basketball Club",
    { description := "Practice drills, scrimmages, and intramural games"
      schedule := "Tuesdays and Fridays, 4:30 PM - 6:00 PM"
      max_participants := 12
      participants := ["liam@mergington.edu", "ava@mergington.edu"] }),
   ("Art Club",
    { description := "Explore drawing, painting, and mixed media projects"
      schedule := "Wednesdays, 3:30 PM - 5:00 PM"
      max_participants := 15
      participants := ["isabella@mergington.edu", "jack@mergington.edu"] }),
   ("Drama Club",
    { description := "Acting, stagecraft, and production of school plays"
      schedule := "Thursdays, 5:00 PM - 7:00 PM"
      max_participants := 25
      participants := ["grace@mergington.edu", "mason@mergington.edu"] }),
   ("Debate Team",
    { description := "Competitive debating and public speaking practice"
      schedule := "Wednesdays and Fridays, 4:00 PM - 5:30 PM"
      max_participants := 20
      participants := ["harper@mergington.edu", "noah@mergington.edu"] }),
   ("Science Club",
    { description := "Hands-on experiments, research projects, and science fairs"
      schedule := "Tuesdays, 4:00 PM - 5:30 PM"
      max_participants := 25
      participants := ["sophia.r@mergington.edu", "ethan@mergington.edu"] })]

/-- Key lookup in the registry: models the Python membership test
`activity_name not in activities` together with the access
`activities[activity_name]` (dict keys are unique). -/
def lookupAct : Registry → String → Option Activity
  | [], _ => none
  | kv :: rest, name => if kv.1 = name then some kv.2 else lookupAct rest name

/-- In-place replacement of one activity's participant list, modelling the
mutation of the record stored under `name` in the dict. -/
def setParticipants (reg : Registry) (name : String) (ps : List String) : Registry :=
  reg.map fun kv => if kv.1 = name then (kv.1, { kv.2 with participants := ps }) else kv

/-- `signup_for_activity` of src/src/app.py (POST
/activities/NAME/signup, lines 97-113). Returns the response, an
HTTP error or the confirmation message, paired with the registry after the
call; both `raise HTTPException` paths occur before any mutation, so they
leave the registry unchanged. -/
def signup_for_activity (reg : Registry) (activity_name email : String) :
    Except HTTPError String × Registry :=
  match lookupAct reg activity_name with
  | none => (Except.error ⟨404, "Activity not found"⟩, reg)
  | some activity =>
      if email ∈ activity.participants then
        (Except.error ⟨400, "Student already signed up for this activity"⟩, reg)
      else
        (Except.ok ("Signed up " ++ email ++ " for " ++ activity_name),
         setParticipants reg activity_name (activity.participants ++ [email]))

/-- Modelled from the spec: the Withdraw operation, the handler for DELETE
/activities/NAME/participants, is exercised by src/tests/test_app.py
but absent from src/src/app.py. Per spec section 4.1 and section 6: fails
404 "Activity not found" when the name is not a registry key; fails 404
with a message containing "not registered" when the email is not in the
participant sequence; otherwise removes the email from the sequence and
returns a confirmation message. -/
def unregister_from_activity (reg : Registry) (activity_name email : String) :
    Except HTTPError String × Registry :=
  match lookupAct reg activity_name with
  | none => (Except.error ⟨404, "Activity not found"⟩, reg)
  | some activity =>
      if email ∈ activity.participants then
        (Except.ok ("Unregistered " ++ email ++ " from " ++ activity_name),
         setParticipants reg activity_name (activity.participants.erase email))
      else
        (Except.error ⟨404, "Student " ++ email ++ " is not registered for this activity"⟩,
         reg)

/-- A client operation against the registry. -/
inductive Op where
  | enroll (activity_name email : String)
  | withdraw (activity_name email : String)
  | listAll

/-- The registry state after one operation; the list endpoint
(`get_activities`) has no side effect. -/
def applyOp (reg : Registry) : Op → Registry
  | Op.enroll a e => (signup_for_activity reg a e).2
  | Op.withdraw a e => (unregister_from_activity reg a e).2
  | Op.listAll => reg

/-- The registry state after a finite sequence of operations. -/
def applyOps (reg : Registry) : List Op → Registry
  | [] => reg
  | op :: ops => applyOps (applyOp reg op) ops

/-- Every activity's participant sequence is duplicate-free. -/
abbrev NodupParticipants (reg : Registry) : Prop :=
  ∀ kv ∈ reg, (Prod.snd kv).participants.Nodup

theorem lookupAct_mem {reg : Registry} {name : String} {act : Activity}
    (h : lookupAct reg name = some act) : (name, act) ∈ reg := by
  induction reg with
  | nil => simp [lookupAct] at h
  | cons kv rest ih =>
      simp only [lookupAct] at h
      by_cases hk : kv.1 = name
      · rw [if_pos hk] at h
        injection h with h2
        have hkv : (name, act) = kv := by rw [← hk, ← h2]
        rw [hkv]
        exact List.mem_cons_self _ _
      · rw [if_neg hk] at h
        exact List.mem_cons_of_mem _ (ih h)

theorem lookupAct_eq_none {reg : Registry} {name : String}
    (h : ∀ kv ∈ reg, Prod.fst kv ≠ name) : lookupAct reg name = none := by
  induction reg with
  | nil => rfl
  | cons kv rest ih =>
      simp only [lookupAct]
      rw [if_neg (h kv (List.mem_cons_self _ _))]
      exact ih fun kv' hkv' => h kv' (List.mem_cons_of_mem _ hkv')

theorem lookupAct_setParticipants {reg : Registry} {name : String} {act : Activity}
    (h : lookupAct reg name = some act) (ps : List String) :
    lookupAct (setParticipants reg name ps) name =
      some { act with participants := ps } := by
  induction reg with
  | nil => simp [lookupAct] at h
  | cons kv rest ih =>
      simp only [lookupAct, setParticipants, List.map] at h ⊢
      by_cases hk : kv.1 = name
      · rw [if_pos hk] at h
        injection h with h2
        simp [lookupAct, hk, h2]
      · rw [if_neg hk] at h
        simpa [lookupAct, hk, setParticipants] using ih h

theorem signup_eq_of_lookup_some {reg : Registry} {A : String} {act : Activity}
    (h : lookupAct reg A = some act) (e : String) :
    signup_for_activity reg A e =
      if e ∈ act.participants then
        (Except.error ⟨400, "Student already signed up for this activity"⟩, reg)
      else
        (Except.ok ("Signed up " ++ e ++ " for " ++ A),
         setParticipants reg A (act.participants ++ [e])) := by
  simp [signup_for_activity, h]

theorem signup_eq_of_lookup_none {reg : Registry} {A : String}
    (h : lookupAct reg A = none) (e : String) :
    signup_for_activity reg A e = (Except.error ⟨404, "Activity not found"⟩, reg) := by
  simp [signup_for_activity, h]

theorem unregister_eq_of_lookup_some {reg : Registry} {A : String} {act : Activity}
    (h : lookupAct reg A = some act) (e : String) :
    unregister_from_activity reg A e =
      if e ∈ act.participants then
        (Except.ok ("Unregistered " ++ e ++ " from " ++ A),
         setParticipants reg A (act.participants.erase e))
      else
        (Except.error ⟨404, "Student " ++ e ++ " is not registered for this activity"⟩,
         reg) := by
  simp [unregister_from_activity, h]

theorem unregister_eq_of_lookup_none {reg : Registry} {A : String}
    (h : lookupAct reg A = none) (e : String) :
    unregister_from_activity reg A e =
      (Except.error ⟨404, "Activity not found"⟩, reg) := by
  simp [unregister_from_activity, h]

theorem setParticipants_preserves {reg : Registry} {ps : List String}
    (h : NodupParticipants reg) (hps : ps.Nodup) (name : String) :
    NodupParticipants (setParticipants reg name ps) := by
  intro kv hkv
  simp only [setParticipants, List.mem_map] at hkv
  obtain ⟨kv', hkv', rfl⟩ := hkv
  by_cases hk : kv'.1 = name
  · simpa [hk] using hps
  · simpa [hk] using h kv' hkv'

theorem applyOp_preserves {reg : Registry} (h : NodupParticipants reg) (op : Op) :
    NodupParticipants (applyOp reg op) := by
  cases op with
  | listAll => exact h
  | enroll a e =>
      cases hl : lookupAct reg a with
      | none => simpa [applyOp, signup_eq_of_lookup_none hl] using h
      | some act =>
          by_cases he : e ∈ act.participants
          · simpa [applyOp, signup_eq_of_lookup_some hl, he] using h
          · have hndact : act.participants.Nodup := h _ (lookupAct_mem hl)
            have hnd : (act.participants ++ [e]).Nodup := by
              simp [List.nodup_append, hndact, he]
            simpa [applyOp, signup_eq_of_lookup_some hl, he] using
              setParticipants_preserves h hnd a
  | withdraw a e =>
      cases hl : lookupAct reg a with
      | none => simpa [applyOp, unregister_eq_of_lookup_none hl] using h
      | some act =>
          by_cases he : e ∈ act.participants
          · have hndact : act.participants.Nodup := h _ (lookupAct_mem hl)
            simpa [applyOp, unregister_eq_of_lookup_some hl, he] using
              setParticipants_preserves h (hndact.erase e) a
          · simpa [applyOp, unregister_eq_of_lookup_some hl, he] using h

theorem applyOps_preserves {reg : Registry} (h : NodupParticipants reg)
    (ops : List Op) : NodupParticipants (applyOps reg ops) := by
  induction ops generalizing reg with
  | nil => exact h
  | cons op ops ih => exact ih (applyOp_preserves h op)

/-- C1: for every activity A in the registry and every email e present in
participants(A) (duplicate-free, per the registry invariant), Withdraw(A, e)
succeeds, returns a confirmation message, and the resulting participants(A)
equals the old sequence with e removed, relative order of all remaining
entries preserved: it is the filter of the old sequence keeping exactly the
entries different from e. -/
theorem withdraw_success (reg : Registry) (A e : String) (act : Activity)
    (hA : lookupAct reg A = some act) (he : e ∈ act.participants)
    (hnd : act.participants.Nodup) :
    (unregister_from_activity reg A e).1 =
        Except.ok ("Unregistered " ++ e ++ " from " ++ A) ∧
      lookupAct (unregister_from_activity reg A e).2 A =
        some { act with participants := act.participants.filter (fun x => x != e) } := by
  have hrw := unregister_eq_of_lookup_some hA e
  rw [if_pos he] at hrw
  rw [hrw]
  refine ⟨rfl, ?_⟩
  rw [← hnd.erase_eq_filter e]
  exact lookupAct_setParticipants hA _

theorem withdraw_success_witness :
    (unregister_from_activity activities "Chess Club" "michael@mergington.edu").1 =
        Except.ok ("Unregistered " ++ "michael@mergington.edu" ++ " from " ++ "Chess Club") ∧
      lookupAct (unregister_from_activity activities "Chess Club"
          "michael@mergington.edu").2 "Chess Club" =
        some { description := "Learn strategies and compete in chess tournaments"
               schedule := "Fridays, 3:30 PM - 5:00 PM"
               max_participants := 12
               participants :=
                 (["michael@mergington.edu", "daniel@mergington.edu"] : List String).filter
                   (fun x => x != "michael@mergington.edu") } :=
  withdraw_success activities "Chess Club" "michael@mergington.edu"
    ⟨"Learn strategies and compete in chess tournaments", "Fridays, 3:30 PM - 5:00 PM",
     12, ["michael@mergington.edu", "daniel@mergington.edu"]⟩
    (by decide) (by decide) (by decide)

/-- C2: for every activity A in the registry and every email e not present in
participants(A), Enroll(A, e) succeeds, the resulting participants(A) equals
the old sequence with e appended at the end (prior entries unchanged, in
order), and the returned confirmation message references both e and A: e
occurs in it, and it ends with A. -/
theorem signup_success (reg : Registry) (A e : String) (act : Activity)
    (hA : lookupAct reg A = some act) (he : e ∉ act.participants) :
    (signup_for_activity reg A e).1 = Except.ok ("Signed up " ++ e ++ " for " ++ A) ∧
      lookupAct (signup_for_activity reg A e).2 A =
        some { act with participants := act.participants ++ [e] } ∧
      (∃ p q, "Signed up " ++ e ++ " for " ++ A = p ++ e ++ q) ∧
      (∃ u, "Signed up " ++ e ++ " for " ++ A = u ++ A) := by
  have hrw := signup_eq_of_lookup_some hA e
  rw [if_neg he] at hrw
  rw [hrw]
  exact ⟨rfl, lookupAct_setParticipants hA _,
    ⟨"Signed up ", " for " ++ A, String.append_assoc _ _ _⟩,
    ⟨"Signed up " ++ e ++ " for ", rfl⟩⟩

theorem signup_success_witness :
    (signup_for_activity activities "Chess Club" "newstudent@mergington.edu").1 =
        Except.ok ("Signed up " ++ "newstudent@mergington.edu" ++ " for " ++ "Chess Club") ∧
      lookupAct (signup_for_activity activities "Chess Club"
          "newstudent@mergington.edu").2 "Chess Club" =
        some { description := "Learn strategies and compete in chess tournaments"
               schedule := "Fridays, 3:30 PM - 5:00 PM"
               max_participants := 12
               participants := ["michael@mergington.edu", "daniel@mergington.edu",
                 "newstudent@mergington.edu"] } ∧
      (∃ p q, "Signed up " ++ "newstudent@mergington.edu" ++ " for " ++ "Chess Club" =
        p ++ "newstudent@mergington.edu" ++ q) ∧
      (∃ u, "Signed up " ++ "newstudent@mergington.edu" ++ " for " ++ "Chess Club" =
        u ++ "Chess Club") :=
  signup_success activities "Chess Club" "newstudent@mergington.edu"
    ⟨"Learn strategies and compete in chess tournaments", "Fridays, 3:30 PM - 5:00 PM",
     12, ["michael@mergington.edu", "daniel@mergington.edu"]⟩
    (by decide) (by decide)

/-- C3: for every activity A in the registry and every email e not present in
participants(A), Enroll(A, e) followed by Withdraw(A, e) restores the record
of A, and in particular participants(A), to exactly its pre-enroll value. -/
theorem signup_unregister_roundtrip (reg : Registry) (A e : String) (act : Activity)
    (hA : lookupAct reg A = some act) (he : e ∉ act.participants) :
    lookupAct (unregister_from_activity (signup_for_activity reg A e).2 A e).2 A =
      some act := by
  have hrw := signup_eq_of_lookup_some hA e
  rw [if_neg he] at hrw
  rw [hrw]
  have hA1 : lookupAct (setParticipants reg A (act.participants ++ [e])) A =
      some { act with participants := act.participants ++ [e] } :=
    lookupAct_setParticipants hA _
  have he1 : e ∈ ({ act with participants := act.participants ++ [e] } : Activity).participants := by
    simp
  have hrw2 := unregister_eq_of_lookup_some hA1 e
  rw [if_pos he1] at hrw2
  rw [hrw2]
  rw [lookupAct_setParticipants hA1 _]
  have herase : (act.participants ++ [e]).erase e = act.participants := by
    rw [List.erase_append_right _ he]
    simp
  simp only [herase]

theorem signup_unregister_roundtrip_witness :
    lookupAct (unregister_from_activity
        (signup_for_activity activities "Soccer Team" "workflow@mergington.edu").2
        "Soccer Team" "workflow@mergington.edu").2 "Soccer Team" =
      some ⟨"Competitive soccer training and matches", "Mondays and Thursdays, 4:00 PM - 6:00 PM",
        18, ["alex@mergington.edu", "nina@mergington.edu"]⟩ :=
  signup_unregister_roundtrip activities "Soccer Team" "workflow@mergington.edu"
    ⟨"Competitive soccer training and matches", "Mondays and Thursdays, 4:00 PM - 6:00 PM",
     18, ["alex@mergington.edu", "nina@mergington.edu"]⟩
    (by decide) (by decide)

/-- C4: for every activity A in the registry and every email e already present
in participants(A), Enroll(A, e) fails with HTTP 400 and detail
"Student already signed up for this activity", and the registry, hence
participants(A), is left unchanged. -/
theorem signup_duplicate_rejected (reg : Registry) (A e : String) (act : Activity)
    (hA : lookupAct reg A = some act) (he : e ∈ act.participants) :
    signup_for_activity reg A e =
      (Except.error ⟨400, "Student already signed up for this activity"⟩, reg) := by
  have hrw := signup_eq_of_lookup_some hA e
  rw [if_pos he] at hrw
  exact hrw

theorem signup_duplicate_rejected_witness :
    signup_for_activity activities "Chess Club" "michael@mergington.edu" =
      (Except.error ⟨400, "Student already signed up for this activity"⟩, activities) :=
  signup_duplicate_rejected activities "Chess Club" "michael@mergington.edu"
    ⟨"Learn strategies and compete in chess tournaments", "Fridays, 3:30 PM - 5:00 PM",
     12, ["michael@mergington.edu", "daniel@mergington.edu"]⟩
    (by decide) (by decide)

/-- C5: Enroll never enforces max_participants as a capacity limit: for every
activity A in the registry and every email e not in participants(A),
Enroll(A, e) succeeds even when participants(A) is already at or beyond
A's max_participants. -/
theorem signup_ignores_capacity (reg : Registry) (A e : String) (act : Activity)
    (hA : lookupAct reg A = some act) (he : e ∉ act.participants)
    (_hcap : act.max_participants ≤ act.participants.length) :
    (signup_for_activity reg A e).1 =
      Except.ok ("Signed up " ++ e ++ " for " ++ A) := by
  have hrw := signup_eq_of_lookup_some hA e
  rw [if_neg he] at hrw
  rw [hrw]

theorem signup_ignores_capacity_witness :
    (signup_for_activity
        [("Chess Club", ⟨"Learn strategies and compete in chess tournaments",
          "Fridays, 3:30 PM - 5:00 PM", 1,
          ["michael@mergington.edu", "daniel@mergington.edu"]⟩)]
        "Chess Club" "newstudent@mergington.edu").1 =
      Except.ok ("Signed up " ++ "newstudent@mergington.edu" ++ " for " ++ "Chess Club") :=
  signup_ignores_capacity
    [("Chess Club", ⟨"Learn strategies and compete in chess tournaments",
      "Fridays, 3:30 PM - 5:00 PM", 1,
      ["michael@mergington.edu", "daniel@mergington.edu"]⟩)]
    "Chess Club" "newstudent@mergington.edu"
    ⟨"Learn strategies and compete in chess tournaments", "Fridays, 3:30 PM - 5:00 PM",
     1, ["michael@mergington.edu", "daniel@mergington.edu"]⟩
    (by decide) (by decide) (by decide)

/-- C6: for every activity A in the registry and every email e not present in
participants(A), Withdraw(A, e) fails with HTTP 404, the detail message
contains "not registered", and the registry, hence participants(A), is left
unchanged. -/
theorem unregister_not_registered (reg : Registry) (A e : String) (act : Activity)
    (hA : lookupAct reg A = some act) (he : e ∉ act.participants) :
    unregister_from_activity reg A e =
        (Except.error ⟨404, "Student " ++ e ++ " is not registered for this activity"⟩,
         reg) ∧
      ∃ p q, "Student " ++ e ++ " is not registered for this activity" =
        p ++ "not registered" ++ q := by
  have hrw := unregister_eq_of_lookup_some hA e
  rw [if_neg he] at hrw
  refine ⟨hrw, "Student " ++ e ++ " is ", " for this activity", ?_⟩
  have hlit : (" is " : String) ++ ("not registered" ++ " for this activity") =
      " is not registered for this activity" := by decide
  simp only [String.append_assoc]
  rw [hlit]

theorem unregister_not_registered_witness :
    (unregister_from_activity activities "Chess Club" "notregistered@mergington.edu" =
        (Except.error ⟨404, "Student " ++ "notregistered@mergington.edu" ++
           " is not registered for this activity"⟩, activities) ∧
      ∃ p q, "Student " ++ "notregistered@mergington.edu" ++
          " is not registered for this activity" = p ++ "not registered" ++ q) :=
  unregister_not_registered activities "Chess Club" "notregistered@mergington.edu"
    ⟨"Learn strategies and compete in chess tournaments", "Fridays, 3:30 PM - 5:00 PM",
     12, ["michael@mergington.edu", "daniel@mergington.edu"]⟩
    (by decide) (by decide)

/-- C7: for every activity name A that is not a key in the registry and every
email e, Withdraw(A, e) fails with HTTP 404 and detail "Activity not found",
and the registry is left unchanged. -/
theorem unregister_activity_not_found (reg : Registry) (A e : String)
    (hA : lookupAct reg A = none) :
    unregister_from_activity reg A e =
      (Except.error ⟨404, "Activity not found"⟩, reg) :=
  unregister_eq_of_lookup_none hA e

theorem unregister_activity_not_found_witness :
    unregister_from_activity activities "NonExistent Activity" "test@mergington.edu" =
      (Except.error ⟨404, "Activity not found"⟩, activities) :=
  unregister_activity_not_found activities "NonExistent Activity" "test@mergington.edu"
    (by decide)

/-- C8: for every activity name A that is not a key in the registry and every
email e, Enroll(A, e) fails with HTTP 404 and detail "Activity not found",
and the registry is left unchanged. -/
theorem signup_activity_not_found (reg : Registry) (A e : String)
    (hA : lookupAct reg A = none) :
    signup_for_activity reg A e =
      (Except.error ⟨404, "Activity not found"⟩, reg) :=
  signup_eq_of_lookup_none hA e

theorem signup_activity_not_found_witness :
    signup_for_activity activities "NonExistent Activity" "test@mergington.edu" =
      (Except.error ⟨404, "Activity not found"⟩, activities) :=
  signup_activity_not_found activities "NonExistent Activity" "test@mergington.edu"
    (by decide)

/-- C9: duplicate-freedom is an invariant: starting from the seeded registry,
after any finite sequence of Enroll, Withdraw and List operations, the
participants sequence of every activity contains no duplicate email. -/
theorem duplicate_free_invariant (ops : List Op) :
    NodupParticipants (applyOps activities ops) :=
  applyOps_preserves (by decide) ops

theorem duplicate_free_invariant_witness :
    NodupParticipants (applyOps activities
      [Op.enroll "Chess Club" "newstudent@mergington.edu",
       Op.withdraw "Chess Club" "newstudent@mergington.edu",
       Op.listAll]) :=
  duplicate_free_invariant
    [Op.enroll "Chess Club" "newstudent@mergington.edu",
     Op.withdraw "Chess Club" "newstudent@mergington.edu",
     Op.listAll]

/-- C10: activity-name lookup in Enroll is exact string matching with no
normalization: for every name A that differs from every registry key in any
character, including only in letter case, Enroll(A, e) fails with HTTP 404
"Activity not found" for every email e, the registry unchanged. The witness
instantiates this at "chess club", which differs from the seeded key
"Chess Club" only in letter case. -/
theorem signup_exact_name_match (reg : Registry) (A e : String)
    (h : ∀ kv ∈ reg, Prod.fst kv ≠ A) :
    signup_for_activity reg A e =
      (Except.error ⟨404, "Activity not found"⟩, reg) :=
  signup_eq_of_lookup_none (lookupAct_eq_none h) e

theorem signup_exact_name_match_witness :
    signup_for_activity activities "chess club" "test@mergington.edu" =
      (Except.error ⟨404, "Activity not found"⟩, activities) :=
  signup_exact_name_match activities "chess club" "test@mergington.edu"
    (by decide)

end Mergington
